import Mathlib

/-!
A verification development for the GStreamer aging-test orchestrator
(`gstreamer_aging_test_1.10.0/src/gst_cycle.cpp`).

The program is shallowly embedded: the mutable globals of the C++ file
(`phase`, `phase_mode`, `state_tick`, `frame_count`, `last_frame_count`,
`current_stage`, `tee_req_pad_udp`, `tee_req_pad_fps`, `pipeline`,
`state_timer_id`) become fields of an explicit state record `MState`, and
each callback becomes a function on that record.  Calls into GStreamer
whose outcome the program cannot determine (parse-launch, element factory
creation, pad requests, pad links) are driven by a `BuildEnv` record of
boolean outcomes.  Side effects that matter to the specification
(requesting and releasing tee request pads, unreffing the pipeline,
arming timers, error logs) are recorded in an event trace `List Ev`.

Machine integers: `frame_count` is a `uint64_t` incremented once per
processed buffer and `state_tick` an `int` incremented once per timer
firing; neither can overflow in any physically realizable run, so both
are modelled as `Nat`.  The `uint64_t` subtraction in `fps_log_cb` is
modelled as `Nat` subtraction, which agrees with the wrapping semantics
because `last_frame_count` never exceeds `frame_count`.
-/

/-- GStreamer element lifecycle states used by the program
(`GST_STATE_NULL/READY/PAUSED/PLAYING`). -/
inductive GstState
  | null
  | ready
  | paused
  | playing
deriving DecidableEq, Repr

/-- The `Phase` enum of gst_cycle.cpp line 126:
`enum class Phase { NULL_STATE, PLAYING, PAUSED, READY }`. -/
inductive Phase
  | NULL_STATE
  | PLAYING
  | PAUSED
  | READY
deriving DecidableEq, Repr

/-- The phase update performed by one firing of `state_machine_cb`
(lines 276-319): the `switch (phase)` assignments to `phase`, with
`phase_mode == 4` selecting the READY detour out of PAUSED. -/
def stepPhase (mode : Int) : Phase → Phase
  | .NULL_STATE => .PLAYING
  | .PLAYING => .PAUSED
  | .PAUSED => if mode = 4 then .READY else .NULL_STATE
  | .READY => .NULL_STATE

/-- Phase after `n` firings of the state machine, starting from the
boot value `Phase::NULL_STATE` (line 128). -/
def phaseSeq (mode : Int) : Nat → Phase
  | 0 => .NULL_STATE
  | n + 1 => stepPhase mode (phaseSeq mode n)

/-- The three-phase cycle `Null, Playing, Paused, Null, ...` as a
function of the firing count. -/
def cyc3 (n : Nat) : Phase :=
  match n % 3 with
  | 0 => .NULL_STATE
  | 1 => .PLAYING
  | _ => .PAUSED

/-- The four-phase cycle `Null, Playing, Paused, Ready, Null, ...` as a
function of the firing count. -/
def cyc4 (n : Nat) : Phase :=
  match n % 4 with
  | 0 => .NULL_STATE
  | 1 => .PLAYING
  | 2 => .PAUSED
  | _ => .READY

/-- Outcomes of the external GStreamer calls made by one
`create_pipeline` attempt (lines 170-266).  Each field is the success
bit of one call the C++ code checks (or ignores). -/
structure BuildEnv where
  parse_ok : Bool
  tee_found : Bool
  q_udp_ok : Bool
  pay_ok : Bool
  udp_ok : Bool
  q_fps_ok : Bool
  id_ok : Bool
  fsink_ok : Bool
  link_udp_ok : Bool
  link_fps_ok : Bool
  udp_req_pad_ok : Bool
  udp_sink_pad_ok : Bool
  udp_pad_link_ok : Bool
  fps_req_pad_ok : Bool
  fps_sink_pad_ok : Bool
  fps_pad_link_ok : Bool
deriving DecidableEq, Repr

/-- The all-successful environment: every external call succeeds. -/
def okEnv : BuildEnv :=
  { parse_ok := true, tee_found := true, q_udp_ok := true, pay_ok := true,
    udp_ok := true, q_fps_ok := true, id_ok := true, fsink_ok := true,
    link_udp_ok := true, link_fps_ok := true, udp_req_pad_ok := true,
    udp_sink_pad_ok := true, udp_pad_link_ok := true, fps_req_pad_ok := true,
    fps_sink_pad_ok := true, fps_pad_link_ok := true }

/-- Observable events of the embedding.  `reqPad p` records a successful
`gst_element_request_pad_simple` returning tee request pad `p`;
`relPad p` a `gst_object_unref` of that request pad; `newGraph` /
`unrefGraph` creation and destruction of a pipeline handle; `armTimer`
an `arm_next_state_timer` call; `setState` a `gst_element_set_state`
request; `logError` a `[ERROR]` line on stderr. -/
inductive Ev
  | reqPad (p : Nat)
  | relPad (p : Nat)
  | newGraph (g : Nat)
  | unrefGraph (g : Nat)
  | armTimer (secs : Nat)
  | setState (st : GstState)
  | logError (msg : String)
deriving DecidableEq, Repr

/-- Occurrence count of an event in a trace. -/
def cnt (x : Ev) : List Ev → Nat
  | [] => 0
  | y :: l => (if y = x then 1 else 0) + cnt x l

/-- The release events for an optionally-owned tee request pad: the
conditional `gst_object_unref` of lines 298-299 / 311-312 / 381-382. -/
def relOf : Option Nat → List Ev
  | some p => [Ev.relPad p]
  | none => []

/-- The graph instance assembled by one successful `create_pipeline`
call: the pipeline handle id plus the two globals `tee_req_pad_udp` and
`tee_req_pad_fps` as the call leaves them (either a kept request pad or
null when that branch failed to link). -/
structure GraphInstance where
  gid : Nat
  pad_udp : Option Nat
  pad_fps : Option Nat
deriving DecidableEq, Repr

/-- Result of `link_tee_to_queue_and_keep_pad` (lines 145-165): the pad
the caller keeps (if any) and the pad events of the attempt. -/
structure PadOut where
  pad : Option Nat
  evs : List Ev
deriving DecidableEq, Repr

/-- Model of `link_tee_to_queue_and_keep_pad` (lines 145-165).
`req_ok` is the success of `gst_element_request_pad_simple`, `sink_ok`
of `gst_element_get_static_pad`, `link_ok` of `gst_pad_link`; `fresh`
is the identity of the pad when the request succeeds.  On a failure
after a successful request the code unrefs the requested pad before
returning null, so the trace releases it inside the attempt. -/
def link_tee_to_queue_and_keep_pad (req_ok sink_ok link_ok : Bool)
    (fresh : Nat) : PadOut :=
  if req_ok then
    if sink_ok then
      if link_ok then ⟨some fresh, [Ev.reqPad fresh]⟩
      else ⟨none, [Ev.reqPad fresh, Ev.relPad fresh]⟩
    else ⟨none, [Ev.reqPad fresh, Ev.relPad fresh]⟩
  else ⟨none, []⟩

/-- `e.q_udp_ok && ... && e.fsink_ok`: the combined element-creation
check of line 225 (`!q_udp || !pay || !udp || !q_fps || !id || !fsink`). -/
def elemsOk (e : BuildEnv) : Bool :=
  e.q_udp_ok && e.pay_ok && e.udp_ok && e.q_fps_ok && e.id_ok && e.fsink_ok

/-- Result of a `create_pipeline` call: the constructed instance (or
none on failure), the events of the attempt, and the next fresh id. -/
structure BuildOut where
  res : Option GraphInstance
  evs : List Ev
  next : Nat
deriving DecidableEq, Repr

/-- Model of `create_pipeline` (lines 170-266).  Ids are drawn from the
counter `c`: the pipeline handle gets id `c`, the UDP-branch tee pad
`c + 1`, the FPS-branch tee pad `c + 2`.  Mirrors the source control
flow: parse failure returns null with nothing built; a missing tee or a
failed element creation unrefs the partial pipeline and returns null
(no pad has been requested yet at either point); branch link failures
after that are only logged — the pipeline is returned regardless, with
the corresponding pad global left null. -/
def create_pipeline (e : BuildEnv) (c : Nat) : BuildOut :=
  if e.parse_ok then
    if e.tee_found then
      if elemsOk e then
        let u := link_tee_to_queue_and_keep_pad e.udp_req_pad_ok
          e.udp_sink_pad_ok e.udp_pad_link_ok (c + 1)
        let f := link_tee_to_queue_and_keep_pad e.fps_req_pad_ok
          e.fps_sink_pad_ok e.fps_pad_link_ok (c + 2)
        { res := some ⟨c, u.pad, f.pad⟩,
          evs := [Ev.newGraph c]
            ++ (if e.link_udp_ok then [] else [Ev.logError "failed to link UDP branch"])
            ++ (if e.link_fps_ok then [] else [Ev.logError "failed to link FPS branch"])
            ++ u.evs
            ++ (if u.pad = none then [Ev.logError "failed to link tee to UDP queue"] else [])
            ++ f.evs
            ++ (if f.pad = none then [Ev.logError "failed to link tee to FPS queue"] else []),
          next := c + 3 }
      else
        { res := none,
          evs := [Ev.newGraph c, Ev.logError "failed to create branch elements",
            Ev.unrefGraph c],
          next := c + 1 }
    else
      { res := none,
        evs := [Ev.newGraph c, Ev.logError "tee fourk_enc_tee not found",
          Ev.unrefGraph c],
        next := c + 1 }
  else
    { res := none, evs := [Ev.logError "gst_parse_launch failed"], next := c }

/-- The mutable globals of gst_cycle.cpp gathered into one record. -/
structure MState where
  phase : Phase
  phase_mode : Int
  state_tick : Nat
  frame_count : Nat
  last_frame_count : Nat
  current_stage : String
  pad_udp : Option Nat
  pad_fps : Option Nat
  graph : Option Nat
  counter : Nat
  timer : Option Nat
deriving DecidableEq, Repr

/-- Result of one callback firing: the new global state and the events
emitted during the firing. -/
structure StepOut where
  st : MState
  evs : List Ev
deriving DecidableEq, Repr

/-- Model of `set_pipeline_state` (lines 108-121): records the stage
label and issues the state-change request (the bounded
`gst_element_get_state` wait only logs). -/
def set_pipeline_state (st : GstState) (name : String) (s : MState) :
    StepOut :=
  ⟨{s with current_stage := name}, [Ev.setState st]⟩

/-- The rebuild arm of `state_machine_cb` (PAUSED in 3-phase mode,
lines 294-305, and READY, lines 308-318): set the pipeline to NULL,
release the two tee request pads if owned, unref the pipeline handle,
call `create_pipeline` afresh, reset the phase to NULL_STATE and arm a
1 second timer — unconditionally, with no check of the construction
result. -/
def rebuild_to_null (e : BuildEnv) (s : MState) : StepOut :=
  let o := set_pipeline_state GstState.null "NULL" s
  let relU : List Ev := match s.pad_udp with
    | some p => [Ev.relPad p]
    | none => []
  let relF : List Ev := match s.pad_fps with
    | some p => [Ev.relPad p]
    | none => []
  let unrefE : List Ev := match s.graph with
    | some g => [Ev.unrefGraph g]
    | none => []
  let b := create_pipeline e s.counter
  ⟨{o.st with
      pad_udp := match b.res with
        | some gi => gi.pad_udp
        | none => none,
      pad_fps := match b.res with
        | some gi => gi.pad_fps
        | none => none,
      graph := match b.res with
        | some gi => some gi.gid
        | none => none,
      counter := b.next,
      phase := Phase.NULL_STATE,
      timer := some 1 },
    o.evs ++ relU ++ relF ++ unrefE ++ b.evs ++ [Ev.armTimer 1]⟩

/-- Model of `state_machine_cb` (lines 271-322): increment `state_tick`,
switch on the current phase, perform the transition, and re-arm the
one-shot timer with the dwell of the branch taken (10 s after entering
PLAYING, 1 s otherwise). -/
def state_machine_cb (e : BuildEnv) (s : MState) : StepOut :=
  let s1 := {s with state_tick := s.state_tick + 1}
  match s.phase with
  | .NULL_STATE =>
    let o := set_pipeline_state GstState.playing "PLAYING" s1
    ⟨{o.st with phase := Phase.PLAYING, timer := some 10},
      o.evs ++ [Ev.armTimer 10]⟩
  | .PLAYING =>
    let o := set_pipeline_state GstState.paused "PAUSED" s1
    ⟨{o.st with phase := Phase.PAUSED, timer := some 1},
      o.evs ++ [Ev.armTimer 1]⟩
  | .PAUSED =>
    if s.phase_mode = 4 then
      let o := set_pipeline_state GstState.ready "READY" s1
      ⟨{o.st with phase := Phase.READY, timer := some 1},
        o.evs ++ [Ev.armTimer 1]⟩
    else
      rebuild_to_null e s1
  | .READY =>
    rebuild_to_null e s1

/-- `n` consecutive firings of `state_machine_cb`, concatenating the
emitted events. -/
def runN (e : BuildEnv) : Nat → MState → StepOut
  | 0, s => ⟨s, []⟩
  | n + 1, s =>
    let o1 := state_machine_cb e s
    let o2 := runN e n o1.st
    ⟨o2.st, o1.evs ++ o2.evs⟩

/-- Number of state-machine firings in one full phase cycle: 3 in
3-phase mode, 4 in 4-phase mode. -/
def cycleLen (mode : Int) : Nat :=
  if mode = 4 then 4 else 3

/-- One full cycle of firings starting at the given state. -/
def cycleOut (e : BuildEnv) (s : MState) : StepOut :=
  runN e (cycleLen s.phase_mode) s

/-- Model of `on_handoff` (lines 44-46): the engine worker thread
atomically increments `frame_count`. -/
def on_handoff (s : MState) : MState :=
  {s with frame_count := s.frame_count + 1}

/-- One `[FPS]` log line: the stage label and the computed rate. -/
structure LogLine where
  stage : String
  fps : ℚ
deriving DecidableEq, Repr

/-- The sampling interval of the FPS logger: `g_timeout_add_seconds(5,
fps_log_cb, ...)` (line 373) and the divisor `5.0` (line 56). -/
def fps_interval_seconds : Nat := 5

/-- Model of `fps_log_cb` (lines 51-61): load the counter, diff against
the previous snapshot, update the snapshot, and log the rate tagged
with the current stage label. -/
def fps_log_cb (s : MState) : MState × LogLine :=
  let now := s.frame_count
  let diff : Nat := now - s.last_frame_count
  ({s with last_frame_count := now},
    ⟨s.current_stage, (diff : ℚ) / (fps_interval_seconds : ℚ)⟩)

/-- The operations that touch the global state during the run: the
handoff callback (engine worker thread), the FPS sampler and the state
machine callback (control thread timers). -/
inductive Op
  | handoff
  | fpsLog
  | smCb (e : BuildEnv)

/-- Apply one operation to the global state. -/
def applyOp : Op → MState → MState
  | .handoff, s => on_handoff s
  | .fpsLog, s => (fps_log_cb s).1
  | .smCb e, s => (state_machine_cb e s).st

/-- Apply a whole interleaving of operations. -/
def applyOps (ops : List Op) (s : MState) : MState :=
  ops.foldl (fun s o => applyOp o s) s

/-- The global state right after a successful startup in the given
mode: phase NULL_STATE, both counters zero, the pads and handle of the
initial `create_pipeline(initial build)` call, and the initial 1 second
timer armed (lines 368-374). -/
def mainInit (mode : Int) (e : BuildEnv) : MState :=
  match (create_pipeline e 0).res with
  | some gi =>
    { phase := Phase.NULL_STATE, phase_mode := mode, state_tick := 0,
      frame_count := 0, last_frame_count := 0, current_stage := "NULL",
      pad_udp := gi.pad_udp, pad_fps := gi.pad_fps, graph := some gi.gid,
      counter := (create_pipeline e 0).next, timer := some 1 }
  | none =>
    { phase := Phase.NULL_STATE, phase_mode := mode, state_tick := 0,
      frame_count := 0, last_frame_count := 0, current_stage := "NULL",
      pad_udp := none, pad_fps := none, graph := none,
      counter := (create_pipeline e 0).next, timer := some 1 }

/-- A state of the timed simulation: the globals plus the absolute time
at which the armed one-shot timer will fire. -/
structure TimedState where
  ms : MState
  nextFire : Nat
deriving DecidableEq, Repr

/-- Fire the state machine once and schedule the next firing after the
dwell it armed. -/
def fireOnce (e : BuildEnv) (st : TimedState) : TimedState :=
  let ms2 := (state_machine_cb e st.ms).st
  ⟨ms2, st.nextFire + (ms2.timer.getD 1)⟩

/-- Run the timed simulation up to (and including) time `t`, firing
whenever the scheduled time has been reached; `fuel` bounds the number
of firings (every dwell is at least 1 second, so `t` firings always
suffice). -/
def runUntil (e : BuildEnv) (t : Nat) : Nat → TimedState → TimedState
  | 0, st => st
  | fuel + 1, st =>
    if st.nextFire ≤ t then runUntil e t fuel (fireOnce e st) else st

/-- The timed state at `t` seconds after a successful 3-phase-mode
startup with every rebuild succeeding: the initial timer is armed for
1 second at time 0 (line 374). -/
def stateAtTime (t : Nat) : TimedState :=
  runUntil okEnv t t ⟨mainInit 3 okEnv, 1⟩

/-- Model of the graceful-exit tail of `main` (lines 379-386), entered
when `g_main_loop_run` returns after SIGINT: set the pipeline to NULL,
release the still-owned tee request pads, unref the pipeline handle,
and return 0. -/
def graceful_shutdown (s : MState) : List Ev × Int :=
  ([Ev.setState GstState.null]
    ++ (match s.pad_udp with
        | some p => [Ev.relPad p]
        | none => [])
    ++ (match s.pad_fps with
        | some p => [Ev.relPad p]
        | none => [])
    ++ (match s.graph with
        | some g => [Ev.unrefGraph g]
        | none => []), 0)

/-- Model of `std::stoi`: skip leading whitespace, accept an optional
sign, convert the longest leading digit run, ignore what follows;
return none when no digit is found (the C++ call throws
`std::invalid_argument`, which nothing in `main` catches). -/
def stoi (str : String) : Option Int :=
  match str.toList.dropWhile Char.isWhitespace with
  | '-' :: rest =>
    let ds := rest.takeWhile Char.isDigit
    if ds.isEmpty then none
    else some (-(ds.foldl (fun a ch => a * 10 + (ch.toNat - 48)) 0 : Nat))
  | '+' :: rest =>
    let ds := rest.takeWhile Char.isDigit
    if ds.isEmpty then none
    else some ((ds.foldl (fun a ch => a * 10 + (ch.toNat - 48)) 0 : Nat))
  | rest =>
    let ds := rest.takeWhile Char.isDigit
    if ds.isEmpty then none
    else some ((ds.foldl (fun a ch => a * 10 + (ch.toNat - 48)) 0 : Nat))

/-- Outcome of the argument loop of `main` (lines 346-358). -/
inductive ParseOut
  | helpShown
  | stoiAbort
  | proceed (mode : Int)
deriving DecidableEq, Repr

/-- Model of the argument loop of `main` (lines 346-358), with the
accumulated `phase_mode` value (initially 3).  `--help`/`-h` prints
help and returns 0 at once; `--phase` followed by another token feeds
that token to `std::stoi` (aborting the process if it throws) and skips
it; a trailing `--phase` with no following token, and every other
token, is silently ignored. -/
def parseArgs : List String → Int → ParseOut
  | [], m => ParseOut.proceed m
  | a :: rest, m =>
    if a = "--help" ∨ a = "-h" then ParseOut.helpShown
    else if a = "--phase" then
      match rest with
      | [] => ParseOut.proceed m
      | v :: rest2 =>
        match stoi v with
        | none => ParseOut.stoiAbort
        | some n => parseArgs rest2 n
    else parseArgs rest m

/-- Process-level events of `main` before the main loop: the
`gst_init` call (line 365) and the initial `create_pipeline` call
(line 368). -/
inductive MainEv
  | gstInitCall
  | createCall
deriving DecidableEq, Repr

/-- How the process run ends up (or keeps running). -/
inductive Status
  | exited (code : Int)
  | abortedRun
  | looping (mode : Int)
deriving DecidableEq, Repr

/-- Status plus the pre-loop events that occurred. -/
structure MainOutcome where
  status : Status
  events : List MainEv
deriving DecidableEq, Repr

/-- Model of `main` up to entering `g_main_loop_run` (lines 345-377):
parse the arguments, validate `phase_mode` against {3, 4} (returning
-1 before `gst_init` on a bad value), then initialize GStreamer and
attempt the initial pipeline; a null initial pipeline returns -1,
otherwise the process enters the loop. -/
def mainModel (args : List String) (b : BuildEnv) : MainOutcome :=
  match parseArgs args 3 with
  | ParseOut.helpShown => ⟨Status.exited 0, []⟩
  | ParseOut.stoiAbort => ⟨Status.abortedRun, []⟩
  | ParseOut.proceed m =>
    if m = 3 ∨ m = 4 then
      match (create_pipeline b 0).res with
      | none => ⟨Status.exited (-1), [MainEv.gstInitCall, MainEv.createCall]⟩
      | some _ => ⟨Status.looping m, [MainEv.gstInitCall, MainEv.createCall]⟩
    else ⟨Status.exited (-1), []⟩

/-- Environment in which `gst_parse_launch` fails: graph construction
returns null immediately. -/
def parseFailEnv : BuildEnv := { okEnv with parse_ok := false }

/-- Environment in which `gst_pad_link` of the FPS (measurement)
branch fails: the tee request pad for that branch is requested,
released inside the attempt, and the branch is skipped. -/
def fpsLinkFailEnv : BuildEnv := { okEnv with fps_pad_link_ok := false }

/-- Environment in which `gst_element_link_many(q_fps, id, fsink)`
fails: the element chain of the measurement branch does not link. -/
def fpsChainFailEnv : BuildEnv := { okEnv with link_fps_ok := false }

/-- Environment in which creating the `queue` element of the FPS
(measurement) branch fails: the combined element check of line 225
trips and construction aborts. -/
def elemFailEnv : BuildEnv := { okEnv with q_fps_ok := false }

/-- A mid-run state about to take the 3-phase rebuild branch: phase
PAUSED, one pipeline (id 0) owning tee request pads 1 and 2. -/
def pausedRebuildState : MState :=
  { phase := Phase.PAUSED, phase_mode := 3, state_tick := 3,
    frame_count := 0, last_frame_count := 0, current_stage := "PAUSED",
    pad_udp := some 1, pad_fps := some 2, graph := some 0, counter := 3,
    timer := none }

@[simp] lemma cnt_nil (x : Ev) : cnt x [] = 0 := rfl

@[simp] lemma cnt_cons (x y : Ev) (l : List Ev) :
    cnt x (y :: l) = (if y = x then 1 else 0) + cnt x l := rfl

@[simp] lemma cnt_append (x : Ev) (l1 l2 : List Ev) :
    cnt x (l1 ++ l2) = cnt x l1 + cnt x l2 := by
  induction l1 with
  | nil => simp
  | cons y l ih => simp [ih]; omega

lemma mem_of_cnt_ne_zero {x : Ev} {l : List Ev} (h : cnt x l ≠ 0) : x ∈ l := by
  induction l with
  | nil => simp [cnt] at h
  | cons y l ih =>
    by_cases hy : y = x
    · subst hy; exact List.mem_cons_self y l
    · simp [cnt, hy] at h
      exact List.mem_cons_of_mem y (ih h)

lemma pad_cases (r s l : Bool) (f : Nat) :
    link_tee_to_queue_and_keep_pad r s l f = ⟨some f, [Ev.reqPad f]⟩
    ∨ link_tee_to_queue_and_keep_pad r s l f = ⟨none, [Ev.reqPad f, Ev.relPad f]⟩
    ∨ link_tee_to_queue_and_keep_pad r s l f = ⟨none, []⟩ := by
  cases r <;> cases s <;> cases l <;> simp [link_tee_to_queue_and_keep_pad]

lemma cp_balance (e : BuildEnv) (c : Nat) (p : Nat) :
    cnt (Ev.reqPad p) (create_pipeline e c).evs
      = cnt (Ev.relPad p) (create_pipeline e c).evs
        + (match (create_pipeline e c).res with
           | some gi => if gi.pad_udp = some p ∨ gi.pad_fps = some p then 1 else 0
           | none => 0) := by
  cases hp : e.parse_ok <;> cases ht : e.tee_found <;> cases he : elemsOk e <;>
    rcases pad_cases e.udp_req_pad_ok e.udp_sink_pad_ok e.udp_pad_link_ok (c + 1) with hu | hu | hu <;>
    rcases pad_cases e.fps_req_pad_ok e.fps_sink_pad_ok e.fps_pad_link_ok (c + 2) with hf | hf | hf <;>
    cases hl1 : e.link_udp_ok <;> cases hl2 : e.link_fps_ok <;>
    simp [create_pipeline, hp, ht, he, hu, hf, hl1, hl2] <;>
    split_ifs <;> simp_all <;> omega

lemma cp_req_le_one (e : BuildEnv) (c : Nat) (p : Nat) :
    cnt (Ev.reqPad p) (create_pipeline e c).evs ≤ 1 := by
  cases hp : e.parse_ok <;> cases ht : e.tee_found <;> cases he : elemsOk e <;>
    rcases pad_cases e.udp_req_pad_ok e.udp_sink_pad_ok e.udp_pad_link_ok (c + 1) with hu | hu | hu <;>
    rcases pad_cases e.fps_req_pad_ok e.fps_sink_pad_ok e.fps_pad_link_ok (c + 2) with hf | hf | hf <;>
    cases hl1 : e.link_udp_ok <;> cases hl2 : e.link_fps_ok <;>
    simp [create_pipeline, hp, ht, he, hu, hf, hl1, hl2] <;>
    split_ifs <;> simp_all <;> omega

lemma cp_req_ids (e : BuildEnv) (c : Nat) (p : Nat)
    (h : cnt (Ev.reqPad p) (create_pipeline e c).evs ≠ 0) :
    p = c + 1 ∨ p = c + 2 := by
  revert h
  cases hp : e.parse_ok <;> cases ht : e.tee_found <;> cases he : elemsOk e <;>
    rcases pad_cases e.udp_req_pad_ok e.udp_sink_pad_ok e.udp_pad_link_ok (c + 1) with hu | hu | hu <;>
    rcases pad_cases e.fps_req_pad_ok e.fps_sink_pad_ok e.fps_pad_link_ok (c + 2) with hf | hf | hf <;>
    cases hl1 : e.link_udp_ok <;> cases hl2 : e.link_fps_ok <;>
    simp [create_pipeline, hp, ht, he, hu, hf, hl1, hl2] <;> omega

lemma cp_rel_ids (e : BuildEnv) (c : Nat) (p : Nat)
    (h : cnt (Ev.relPad p) (create_pipeline e c).evs ≠ 0) :
    p = c + 1 ∨ p = c + 2 := by
  revert h
  cases hp : e.parse_ok <;> cases ht : e.tee_found <;> cases he : elemsOk e <;>
    rcases pad_cases e.udp_req_pad_ok e.udp_sink_pad_ok e.udp_pad_link_ok (c + 1) with hu | hu | hu <;>
    rcases pad_cases e.fps_req_pad_ok e.fps_sink_pad_ok e.fps_pad_link_ok (c + 2) with hf | hf | hf <;>
    cases hl1 : e.link_udp_ok <;> cases hl2 : e.link_fps_ok <;>
    simp [create_pipeline, hp, ht, he, hu, hf, hl1, hl2] <;> omega

lemma cp_res_chars (e : BuildEnv) (c : Nat) (gi : GraphInstance)
    (h : (create_pipeline e c).res = some gi) :
    gi.gid = c ∧ (gi.pad_udp = none ∨ gi.pad_udp = some (c + 1))
      ∧ (gi.pad_fps = none ∨ gi.pad_fps = some (c + 2))
      ∧ (create_pipeline e c).next = c + 3
      ∧ ∀ g, cnt (Ev.unrefGraph g) (create_pipeline e c).evs = 0 := by
  revert h
  cases hp : e.parse_ok <;> cases ht : e.tee_found <;> cases he : elemsOk e <;>
    rcases pad_cases e.udp_req_pad_ok e.udp_sink_pad_ok e.udp_pad_link_ok (c + 1) with hu | hu | hu <;>
    rcases pad_cases e.fps_req_pad_ok e.fps_sink_pad_ok e.fps_pad_link_ok (c + 2) with hf | hf | hf <;>
    cases hl1 : e.link_udp_ok <;> cases hl2 : e.link_fps_ok <;>
    simp [create_pipeline, hp, ht, he, hu, hf, hl1, hl2] <;>
    intro h <;> cases h <;> simp

lemma smcb_phase (e : BuildEnv) (s : MState) :
    ((state_machine_cb e s).st).phase = stepPhase s.phase_mode s.phase := by
  rcases s with ⟨ph, mo, ti, fc, lfc, stg, pu, pf, gr, co, tm⟩
  cases ph <;> by_cases hm : mo = 4 <;>
    simp [state_machine_cb, set_pipeline_state, rebuild_to_null, stepPhase, hm]

lemma smcb_globals (e : BuildEnv) (s : MState) :
    ((state_machine_cb e s).st).frame_count = s.frame_count
    ∧ ((state_machine_cb e s).st).last_frame_count = s.last_frame_count
    ∧ ((state_machine_cb e s).st).state_tick = s.state_tick + 1
    ∧ ((state_machine_cb e s).st).phase_mode = s.phase_mode := by
  rcases s with ⟨ph, mo, ti, fc, lfc, stg, pu, pf, gr, co, tm⟩
  cases ph <;> by_cases hm : mo = 4 <;>
    simp [state_machine_cb, set_pipeline_state, rebuild_to_null, hm]

lemma applyOp_mono (o : Op) (s : MState) :
    s.frame_count ≤ (applyOp o s).frame_count
    ∧ s.state_tick ≤ (applyOp o s).state_tick := by
  cases o with
  | handoff => exact ⟨by simp [applyOp, on_handoff], by simp [applyOp, on_handoff]⟩
  | fpsLog => exact ⟨by simp [applyOp, fps_log_cb], by simp [applyOp, fps_log_cb]⟩
  | smCb e =>
    obtain ⟨h1, h2, h3, h4⟩ := smcb_globals e s
    constructor
    · simp [applyOp, h1]
    · simp [applyOp, h3]

lemma applyOps_mono (ops : List Op) (s : MState) :
    s.frame_count ≤ (applyOps ops s).frame_count
    ∧ s.state_tick ≤ (applyOps ops s).state_tick := by
  induction ops generalizing s with
  | nil => simp [applyOps]
  | cons o ops ih =>
    have h1 := applyOp_mono o s
    have h2 := ih (applyOp o s)
    have he : applyOps (o :: ops) s = applyOps ops (applyOp o s) := rfl
    rw [he]
    exact ⟨le_trans h1.1 h2.1, le_trans h1.2 h2.2⟩

lemma applyOps_handoff (n : Nat) (s : MState) :
    applyOps (List.replicate n Op.handoff) s
      = {s with frame_count := s.frame_count + n} := by
  induction n generalizing s with
  | zero => rfl
  | succ n ih =>
    rw [List.replicate_succ]
    have he : applyOps (Op.handoff :: List.replicate n Op.handoff) s
        = applyOps (List.replicate n Op.handoff) (on_handoff s) := rfl
    rw [he, ih]
    rcases s with ⟨ph, mo, ti, fc, lfc, stg, pu, pf, gr, co, tm⟩
    simp [on_handoff]
    omega

lemma phaseSeq3_eq (n : Nat) : phaseSeq 3 n = cyc3 n := by
  induction n with
  | zero => rfl
  | succ n ih =>
    have h : n % 3 = 0 ∨ n % 3 = 1 ∨ n % 3 = 2 := by omega
    rcases h with h | h | h
    · have h2 : (n + 1) % 3 = 1 := by omega
      simp [phaseSeq, ih, cyc3, h, h2, stepPhase]
    · have h2 : (n + 1) % 3 = 2 := by omega
      simp [phaseSeq, ih, cyc3, h, h2, stepPhase]
    · have h2 : (n + 1) % 3 = 0 := by omega
      simp [phaseSeq, ih, cyc3, h, h2, stepPhase]

lemma phaseSeq4_eq (n : Nat) : phaseSeq 4 n = cyc4 n := by
  induction n with
  | zero => rfl
  | succ n ih =>
    have h : n % 4 = 0 ∨ n % 4 = 1 ∨ n % 4 = 2 ∨ n % 4 = 3 := by omega
    rcases h with h | h | h | h
    · have h2 : (n + 1) % 4 = 1 := by omega
      simp [phaseSeq, ih, cyc4, h, h2, stepPhase]
    · have h2 : (n + 1) % 4 = 2 := by omega
      simp [phaseSeq, ih, cyc4, h, h2, stepPhase]
    · have h2 : (n + 1) % 4 = 3 := by omega
      simp [phaseSeq, ih, cyc4, h, h2, stepPhase]
    · have h2 : (n + 1) % 4 = 0 := by omega
      simp [phaseSeq, ih, cyc4, h, h2, stepPhase]

lemma parse_skip (a : String) (rest : List String) (m : Int)
    (h1 : a ≠ "-h") (h2 : a ≠ "--help") (h3 : a ≠ "--phase") :
    parseArgs (a :: rest) m = parseArgs rest m := by
  rw [parseArgs.eq_def]
  simp [h1, h2, h3]

lemma parse_trailing (xs : List String) (m : Int)
    (h : ∀ a ∈ xs, a ≠ "-h" ∧ a ≠ "--help" ∧ a ≠ "--phase") :
    parseArgs (xs ++ ["--phase"]) m = ParseOut.proceed m := by
  induction xs generalizing m with
  | nil => rfl
  | cons a xs ih =>
    have ha := h a (List.mem_cons_self a xs)
    rw [List.cons_append, parse_skip a (xs ++ ["--phase"]) m ha.1 ha.2.1 ha.2.2]
    exact ih m (fun b hb => h b (List.mem_cons_of_mem a hb))

lemma main_default (xs : List String) (b : BuildEnv)
    (h : ∀ a ∈ xs, a ≠ "-h" ∧ a ≠ "--help" ∧ a ≠ "--phase") :
    mainModel (xs ++ ["--phase"]) b = mainModel [] b := by
  unfold mainModel
  rw [parse_trailing xs 3 h]
  rfl


lemma cp_fail_atomic (e : BuildEnv) (c : Nat)
    (h : elemsOk e = false ∨ e.tee_found = false ∨ e.parse_ok = false) :
    (create_pipeline e c).res = none
    ∧ (∀ p, cnt (Ev.reqPad p) (create_pipeline e c).evs = 0)
    ∧ (e.parse_ok = true → cnt (Ev.unrefGraph c) (create_pipeline e c).evs = 1) := by
  cases hp : e.parse_ok <;> cases ht : e.tee_found <;> cases he : elemsOk e <;>
    simp_all [create_pipeline]

/-- C2 (code-bug evidence): when `create_pipeline` returns null during
the 3-phase rebuild (here: `gst_parse_launch` fails), `state_machine_cb`
nevertheless arms a further 1-second timer and carries on with a null
pipeline — no fatal condition is reported and the process does not
exit; the next firing simply drives the null pipeline towards PLAYING.
This refutes, on the code, the claim that no further timer is armed
and the process exits non-zero. -/
theorem c2_failed_rebuild_arms_timer_anyway :
    ((state_machine_cb parseFailEnv pausedRebuildState).st).graph = none
    ∧ Ev.armTimer 1 ∈ (state_machine_cb parseFailEnv pausedRebuildState).evs
    ∧ ((state_machine_cb parseFailEnv pausedRebuildState).st).timer = some 1
    ∧ ((state_machine_cb okEnv
        ((state_machine_cb parseFailEnv pausedRebuildState).st)).st).phase
        = Phase.PLAYING := by
  decide

/-- C3 counterexample: the claim says a failure to instantiate *or
link* a required measurement sub-chain element makes `create_pipeline`
release all requested pads, destroy the partial pipeline, and return
null.  On the code, a `gst_pad_link` failure of the tee→FPS-queue link
(and likewise a `gst_element_link_many` failure of the FPS chain) is
only logged: the call still returns the pipeline (non-null). -/
theorem c3_link_failure_not_fatal_counterexample :
    (create_pipeline fpsLinkFailEnv 0).res = some ⟨0, some 1, none⟩
    ∧ (create_pipeline fpsLinkFailEnv 0).res ≠ none
    ∧ Ev.logError "failed to link tee to FPS queue"
        ∈ (create_pipeline fpsLinkFailEnv 0).evs
    ∧ (create_pipeline fpsChainFailEnv 0).res = some ⟨0, some 1, some 2⟩
    ∧ Ev.logError "failed to link FPS branch"
        ∈ (create_pipeline fpsChainFailEnv 0).evs := by
  decide

/-- C3 (amended): construction is atomic on *instantiation* failure —
whenever the base parse, the tee lookup, or any required branch element
creation fails, `create_pipeline` returns null with zero connector pads
requested, destroying the partially built pipeline when one exists
(whenever the parse succeeded); a branch *link* failure does not fail
construction — every pad requested in the attempt and not kept in the
returned instance has already been released inside the attempt. -/
theorem c3_construction_atomic_on_instantiation_failure :
    (∀ (e : BuildEnv) (c : Nat),
        elemsOk e = false ∨ e.tee_found = false ∨ e.parse_ok = false →
        (create_pipeline e c).res = none
        ∧ (∀ p, cnt (Ev.reqPad p) (create_pipeline e c).evs = 0)
        ∧ (e.parse_ok = true →
            cnt (Ev.unrefGraph c) (create_pipeline e c).evs = 1))
    ∧ (∀ (e : BuildEnv) (c : Nat) (p : Nat),
        cnt (Ev.reqPad p) (create_pipeline e c).evs
          = cnt (Ev.relPad p) (create_pipeline e c).evs
            + (match (create_pipeline e c).res with
               | some gi => if gi.pad_udp = some p ∨ gi.pad_fps = some p then 1 else 0
               | none => 0)) :=
  ⟨cp_fail_atomic, cp_balance⟩

/-- Witness for C3's amended theorem: the FPS-branch queue element
failing to instantiate makes construction fail with zero pads
requested and the partial pipeline destroyed; and the balance part at
the FPS link failure. -/
theorem c3_construction_atomic_witness :
    ((create_pipeline elemFailEnv 0).res = none
      ∧ (∀ p, cnt (Ev.reqPad p) (create_pipeline elemFailEnv 0).evs = 0)
      ∧ cnt (Ev.unrefGraph 0) (create_pipeline elemFailEnv 0).evs = 1)
    ∧ cnt (Ev.reqPad 2) (create_pipeline fpsLinkFailEnv 0).evs
        = cnt (Ev.relPad 2) (create_pipeline fpsLinkFailEnv 0).evs
          + (match (create_pipeline fpsLinkFailEnv 0).res with
             | some gi => if gi.pad_udp = some 2 ∨ gi.pad_fps = some 2 then 1 else 0
             | none => 0) := by
  have h := c3_construction_atomic_on_instantiation_failure.1 elemFailEnv 0
    (Or.inl (by decide))
  exact ⟨⟨h.1, h.2.1, h.2.2 (by decide)⟩,
    c3_construction_atomic_on_instantiation_failure.2 fpsLinkFailEnv 0 2⟩

/-- C4: one firing of `state_machine_cb` updates the phase exactly by
`stepPhase`, and the resulting deterministic orbit from NULL_STATE is
the fixed cycle — `Null, Playing, Paused` repeating with period 3 in
3-phase mode, and `Null, Playing, Paused, Ready` repeating with period
4 in 4-phase mode; no other order is reachable. -/
theorem c4_phase_cycle :
    (∀ (e : BuildEnv) (s : MState),
        ((state_machine_cb e s).st).phase = stepPhase s.phase_mode s.phase)
    ∧ (∀ n, phaseSeq 3 n = cyc3 n)
    ∧ (∀ n, phaseSeq 4 n = cyc4 n) :=
  ⟨smcb_phase, phaseSeq3_eq, phaseSeq4_eq⟩

/-- C5: the throughput counter and the cycle tick are never reset —
`on_handoff` increments `frame_count` by one, the sampler leaves both
untouched, the state machine callback (the rebuild branches included)
leaves `frame_count` and `last_frame_count` unchanged and increments
`state_tick`, and hence over any interleaving of the three operations
both counters are non-decreasing. -/
theorem c5_counters_monotone_never_reset :
    (∀ s : MState, (on_handoff s).frame_count = s.frame_count + 1
        ∧ (on_handoff s).state_tick = s.state_tick)
    ∧ (∀ s : MState, ((fps_log_cb s).1).frame_count = s.frame_count
        ∧ ((fps_log_cb s).1).state_tick = s.state_tick)
    ∧ (∀ (e : BuildEnv) (s : MState),
        ((state_machine_cb e s).st).frame_count = s.frame_count
        ∧ ((state_machine_cb e s).st).last_frame_count = s.last_frame_count
        ∧ ((state_machine_cb e s).st).state_tick = s.state_tick + 1)
    ∧ (∀ (ops : List Op) (s : MState),
        s.frame_count ≤ (applyOps ops s).frame_count
        ∧ s.state_tick ≤ (applyOps ops s).state_tick) := by
  refine ⟨?_, ?_, ?_, applyOps_mono⟩
  · intro s
    exact ⟨rfl, rfl⟩
  · intro s
    exact ⟨rfl, rfl⟩
  · intro e s
    obtain ⟨h1, h2, h3, h4⟩ := smcb_globals e s
    exact ⟨h1, h2, h3⟩

/-- C6: starting a 5-second sampling window with the snapshot equal to
the counter, `n` handoff increments inside the window make the sampler
report exactly `n / 5` units per second, tag the log line with the
current stage label, and update the snapshot to the new counter value;
in particular 150 increments give 30 units per second. -/
theorem c6_sampler_windowed_rate (s : MState) (n : Nat)
    (h : s.last_frame_count = s.frame_count) :
    (fps_log_cb (applyOps (List.replicate n Op.handoff) s)).2.fps = (n : ℚ) / 5
    ∧ (fps_log_cb (applyOps (List.replicate n Op.handoff) s)).2.stage
        = (applyOps (List.replicate n Op.handoff) s).current_stage
    ∧ ((fps_log_cb (applyOps (List.replicate n Op.handoff) s)).1).last_frame_count
        = (applyOps (List.replicate n Op.handoff) s).frame_count := by
  rw [applyOps_handoff]
  rcases s with ⟨ph, mo, ti, fc, lfc, stg, pu, pf, gr, co, tm⟩
  simp only [MState.last_frame_count, MState.frame_count] at h
  subst h
  refine ⟨?_, rfl, rfl⟩
  simp [fps_log_cb, fps_interval_seconds]

/-- Witness for C6: 150 increments in one window sample as exactly
30 units per second. -/
theorem c6_sampler_windowed_rate_witness :
    (fps_log_cb (applyOps (List.replicate 150 Op.handoff)
        (mainInit 3 okEnv))).2.fps = 30 := by
  have h := c6_sampler_windowed_rate (mainInit 3 okEnv) 150 (by rfl)
  rw [h.1]
  norm_num

/-- C7: in 3-phase mode with the source's dwell schedule (initial arm
1 s, PLAYING 10 s, PAUSED 1 s, rebuild 1 s), at 22 seconds after start
the tick counter is at least 2 (it is 4) and the current phase is
PLAYING. -/
theorem c7_state_after_22_seconds :
    2 ≤ (stateAtTime 22).ms.state_tick
    ∧ (stateAtTime 22).ms.phase = Phase.PLAYING := by
  decide

/-- C8 counterexample: in the invocation `--phase 5 --help` the
`--phase` value is parsed (std::stoi returns 5, and the loop continues
with `phase_mode = 5`), yet the loop then reaches `--help` and the
process prints help and returns 0 — not a non-zero exit.  This refutes
the claim as a universal over every invocation whose `--phase` value
parses outside {3, 4}. -/
theorem c8_help_after_invalid_phase_counterexample :
    stoi "5" = some 5
    ∧ parseArgs ["--phase", "5", "--help"] 3 = parseArgs ["--help"] 5
    ∧ parseArgs ["--phase", "5", "--help"] 3 = ParseOut.helpShown
    ∧ (mainModel ["--phase", "5", "--help"] okEnv).status = Status.exited 0 := by
  decide

/-- C8 (amended): when the argument loop runs to completion — no
`-h`/`--help` token reached first and no std::stoi abort — with a final
parsed `--phase` value other than 3 or 4, the process returns -1
immediately, before `gst_init` and before any pipeline construction;
when a `-h`/`--help` token is reached first, the process returns 0
instead, even if a `--phase` value outside {3, 4} was parsed earlier in
the same invocation. -/
theorem c8_invalid_phase_exits_before_init :
    (∀ (args : List String) (b : BuildEnv) (m : Int),
        parseArgs args 3 = ParseOut.proceed m → m ≠ 3 → m ≠ 4 →
        (mainModel args b).status = Status.exited (-1)
        ∧ (mainModel args b).events = [])
    ∧ (∀ (args : List String) (b : BuildEnv),
        parseArgs args 3 = ParseOut.helpShown →
        (mainModel args b).status = Status.exited 0
        ∧ (mainModel args b).events = []) := by
  constructor
  · intro args b m hp h3 h4
    simp [mainModel, hp, h3, h4]
  · intro args b hp
    simp [mainModel, hp]

/-- Witness for C8: `--phase 5` exits -1 before `gst_init`, and
`--phase 5 --help` exits 0 through the help branch. -/
theorem c8_invalid_phase_witness :
    ((mainModel ["--phase", "5"] okEnv).status = Status.exited (-1)
      ∧ (mainModel ["--phase", "5"] okEnv).events = [])
    ∧ ((mainModel ["--phase", "5", "--help"] okEnv).status = Status.exited 0
      ∧ (mainModel ["--phase", "5", "--help"] okEnv).events = []) :=
  ⟨c8_invalid_phase_exits_before_init.1 ["--phase", "5"] okEnv 5 (by decide)
      (by decide) (by decide),
    c8_invalid_phase_exits_before_init.2 ["--phase", "5", "--help"] okEnv
      (by decide)⟩

/-- C9: on a graceful stop the program emits, in order, the NULL state
change, then a release of every still-owned tee request pad, then the
unref of the pipeline handle, and returns exit code 0. -/
theorem c9_graceful_shutdown_order (s : MState) (g : Nat)
    (hg : s.graph = some g) :
    (graceful_shutdown s).2 = 0
    ∧ ∃ mid, (graceful_shutdown s).1
        = Ev.setState GstState.null :: (mid ++ [Ev.unrefGraph g])
      ∧ ∀ p, (s.pad_udp = some p ∨ s.pad_fps = some p) → Ev.relPad p ∈ mid := by
  rcases s with ⟨ph, mo, ti, fc, lfc, stg, pu, pf, gr, co, tm⟩
  simp only [MState.graph] at hg
  subst hg
  refine ⟨rfl,
    (match pu with | some p => [Ev.relPad p] | none => [])
      ++ (match pf with | some p => [Ev.relPad p] | none => []), ?_, ?_⟩
  · cases pu <;> cases pf <;> simp [graceful_shutdown]
  · intro p hp
    cases pu <;> cases pf <;> rcases hp with h | h <;> simp_all

/-- Witness for C9 at a state owning pads 1 and 2 of pipeline 0. -/
theorem c9_graceful_shutdown_witness :
    (graceful_shutdown pausedRebuildState).2 = 0
    ∧ ∃ mid, (graceful_shutdown pausedRebuildState).1
        = Ev.setState GstState.null :: (mid ++ [Ev.unrefGraph 0])
      ∧ ∀ p, (pausedRebuildState.pad_udp = some p
          ∨ pausedRebuildState.pad_fps = some p) → Ev.relPad p ∈ mid :=
  c9_graceful_shutdown_order pausedRebuildState 0 (by rfl)

/-- C10: the argument loop rejects nothing by itself — any token other
than `-h`, `--help` and `--phase` is skipped with no effect, a trailing
`--phase` with no following token is silently ignored, and an argument
list of only such tokens behaves exactly like an empty argument list:
the program proceeds into `gst_init` with the default 3-phase mode
rather than exiting non-zero. -/
theorem c10_lenient_arg_loop :
    (∀ (a : String) (rest : List String) (m : Int),
        a ≠ "-h" → a ≠ "--help" → a ≠ "--phase" →
        parseArgs (a :: rest) m = parseArgs rest m)
    ∧ (∀ (xs : List String) (m : Int),
        (∀ a ∈ xs, a ≠ "-h" ∧ a ≠ "--help" ∧ a ≠ "--phase") →
        parseArgs (xs ++ ["--phase"]) m = ParseOut.proceed m)
    ∧ (∀ (xs : List String) (b : BuildEnv),
        (∀ a ∈ xs, a ≠ "-h" ∧ a ≠ "--help" ∧ a ≠ "--phase") →
        mainModel (xs ++ ["--phase"]) b = mainModel [] b
        ∧ MainEv.gstInitCall ∈ (mainModel (xs ++ ["--phase"]) b).events) := by
  refine ⟨parse_skip, parse_trailing, ?_⟩
  intro xs b h
  refine ⟨main_default xs b h, ?_⟩
  rw [main_default xs b h]
  cases hc : (create_pipeline b 0).res <;>
    simp [mainModel, hc, show parseArgs [] 3 = ParseOut.proceed 3 from rfl]

/-- Witness for C10: an unknown token plus a trailing bare `--phase`
is ignored and the run proceeds like a default invocation. -/
theorem c10_lenient_arg_loop_witness :
    parseArgs ["bogus", "--phase", "4"] 3 = parseArgs ["--phase", "4"] 3
    ∧ parseArgs (["bogus"] ++ ["--phase"]) 3 = ParseOut.proceed 3
    ∧ mainModel (["bogus"] ++ ["--phase"]) okEnv = mainModel [] okEnv :=
  ⟨c10_lenient_arg_loop.1 "bogus" ["--phase", "4"] 3 (by decide) (by decide)
      (by decide),
    c10_lenient_arg_loop.2.1 ["bogus"] 3 (by decide),
    (c10_lenient_arg_loop.2.2 ["bogus"] okEnv (by decide)).1⟩

lemma cp_unref_ids (e : BuildEnv) (c : Nat) (g : Nat)
    (h : cnt (Ev.unrefGraph g) (create_pipeline e c).evs ≠ 0) : g = c := by
  revert h
  cases hp : e.parse_ok <;> cases ht : e.tee_found <;> cases he : elemsOk e <;>
    rcases pad_cases e.udp_req_pad_ok e.udp_sink_pad_ok e.udp_pad_link_ok (c + 1) with hu | hu | hu <;>
    rcases pad_cases e.fps_req_pad_ok e.fps_sink_pad_ok e.fps_pad_link_ok (c + 2) with hf | hf | hf <;>
    cases hl1 : e.link_udp_ok <;> cases hl2 : e.link_fps_ok <;>
    simp [create_pipeline, hp, ht, he, hu, hf, hl1, hl2] <;> omega

lemma cycle3_evs (e1 : BuildEnv) (ti fc lfc : Nat) (stg : String)
    (pu pf : Option Nat) (g c : Nat) (tm : Option Nat) :
    (cycleOut e1 ⟨Phase.NULL_STATE, 3, ti, fc, lfc, stg, pu, pf, some g, c, tm⟩).evs
      = [Ev.setState GstState.playing, Ev.armTimer 10,
         Ev.setState GstState.paused, Ev.armTimer 1,
         Ev.setState GstState.null]
        ++ relOf pu ++ relOf pf
        ++ (Ev.unrefGraph g :: (create_pipeline e1 c).evs)
        ++ [Ev.armTimer 1] := by
  cases pu <;> cases pf <;>
    simp [cycleOut, cycleLen, runN, state_machine_cb, set_pipeline_state,
      rebuild_to_null, relOf, List.append_assoc]

lemma cycle3_st_pads (e1 : BuildEnv) (ti fc lfc : Nat) (stg : String)
    (pu pf : Option Nat) (g c : Nat) (tm : Option Nat) :
    ((cycleOut e1 ⟨Phase.NULL_STATE, 3, ti, fc, lfc, stg, pu, pf, some g, c, tm⟩).st).pad_udp
        = (match (create_pipeline e1 c).res with
           | some gi2 => gi2.pad_udp
           | none => none)
    ∧ ((cycleOut e1 ⟨Phase.NULL_STATE, 3, ti, fc, lfc, stg, pu, pf, some g, c, tm⟩).st).pad_fps
        = (match (create_pipeline e1 c).res with
           | some gi2 => gi2.pad_fps
           | none => none) := by
  constructor <;>
    simp [cycleOut, cycleLen, runN, state_machine_cb, set_pipeline_state,
      rebuild_to_null]

lemma cycle4_evs (e1 : BuildEnv) (ti fc lfc : Nat) (stg : String)
    (pu pf : Option Nat) (g c : Nat) (tm : Option Nat) :
    (cycleOut e1 ⟨Phase.NULL_STATE, 4, ti, fc, lfc, stg, pu, pf, some g, c, tm⟩).evs
      = [Ev.setState GstState.playing, Ev.armTimer 10,
         Ev.setState GstState.paused, Ev.armTimer 1,
         Ev.setState GstState.ready, Ev.armTimer 1,
         Ev.setState GstState.null]
        ++ relOf pu ++ relOf pf
        ++ (Ev.unrefGraph g :: (create_pipeline e1 c).evs)
        ++ [Ev.armTimer 1] := by
  cases pu <;> cases pf <;>
    simp [cycleOut, cycleLen, runN, state_machine_cb, set_pipeline_state,
      rebuild_to_null, relOf, List.append_assoc]

lemma cycle4_st_pads (e1 : BuildEnv) (ti fc lfc : Nat) (stg : String)
    (pu pf : Option Nat) (g c : Nat) (tm : Option Nat) :
    ((cycleOut e1 ⟨Phase.NULL_STATE, 4, ti, fc, lfc, stg, pu, pf, some g, c, tm⟩).st).pad_udp
        = (match (create_pipeline e1 c).res with
           | some gi2 => gi2.pad_udp
           | none => none)
    ∧ ((cycleOut e1 ⟨Phase.NULL_STATE, 4, ti, fc, lfc, stg, pu, pf, some g, c, tm⟩).st).pad_fps
        = (match (create_pipeline e1 c).res with
           | some gi2 => gi2.pad_fps
           | none => none) := by
  constructor <;>
    simp [cycleOut, cycleLen, runN, state_machine_cb, set_pipeline_state,
      rebuild_to_null]

lemma cycle_release_core (e0 e1 : BuildEnv) (c0 : Nat) (gpu gpf : Option Nat)
    (h0 : (create_pipeline e0 c0).res = some ⟨c0, gpu, gpf⟩)
    (hpu : gpu = none ∨ gpu = some (c0 + 1))
    (hpf : gpf = none ∨ gpf = some (c0 + 2))
    (lead : List Ev)
    (hlreq : ∀ p, cnt (Ev.reqPad p) lead = 0)
    (hlrel : ∀ p, cnt (Ev.relPad p) lead = 0)
    (tr : List Ev)
    (htr : tr = lead ++ relOf gpu ++ relOf gpf
        ++ (Ev.unrefGraph c0 :: (create_pipeline e1 (c0 + 3)).evs)
        ++ [Ev.armTimer 1]) :
    (∀ p, cnt (Ev.reqPad p) (create_pipeline e0 c0).evs = 1 →
        cnt (Ev.relPad p) ((create_pipeline e0 c0).evs ++ tr) = 1)
    ∧ (∀ p, cnt (Ev.relPad p) ((create_pipeline e0 c0).evs ++ tr)
        ≤ cnt (Ev.reqPad p) ((create_pipeline e0 c0).evs ++ tr))
    ∧ (∃ pre post, (create_pipeline e0 c0).evs ++ tr
          = pre ++ Ev.unrefGraph c0 :: post
        ∧ cnt (Ev.unrefGraph c0) post = 0
        ∧ ∀ p, cnt (Ev.reqPad p) (create_pipeline e0 c0).evs = 1 →
            Ev.relPad p ∈ pre ∧ cnt (Ev.relPad p) post = 0) := by
  have hbal0 := cp_balance e0 c0
  simp only [h0] at hbal0
  have hreq0 := cp_req_ids e0 c0
  have hrel1 := cp_rel_ids e1 (c0 + 3)
  have hbal1 := cp_balance e1 (c0 + 3)
  have hunr1 : cnt (Ev.unrefGraph c0) (create_pipeline e1 (c0 + 3)).evs = 0 := by
    by_contra hz
    have := cp_unref_ids e1 (c0 + 3) c0 hz
    omega
  have hn1 : ∀ p, cnt (Ev.reqPad p) (create_pipeline e0 c0).evs = 1 →
      cnt (Ev.relPad p) (create_pipeline e1 (c0 + 3)).evs = 0 := by
    intro p hp
    by_contra hz
    rcases hrel1 p hz with h | h <;>
      rcases hreq0 p (by omega) with h2 | h2 <;> omega
  subst htr
  refine ⟨?_, ?_, ?_⟩
  · intro p hp
    have hb := hbal0 p
    have hz := hn1 p hp
    rcases hpu with h1 | h1 <;> subst h1 <;> rcases hpf with h2 | h2 <;> subst h2 <;>
      by_cases ha : c0 + 1 = p <;> by_cases ha2 : c0 + 2 = p <;>
      simp [relOf, hlrel p, hz, ha, ha2] at hb ⊢ <;> omega
  · intro p
    have hb := hbal0 p
    have hb1 := hbal1 p
    have hle1 : cnt (Ev.relPad p) (create_pipeline e1 (c0 + 3)).evs
        ≤ cnt (Ev.reqPad p) (create_pipeline e1 (c0 + 3)).evs := by
      rw [hb1]
      exact Nat.le_add_right _ _
    rcases hpu with h1 | h1 <;> subst h1 <;> rcases hpf with h2 | h2 <;> subst h2 <;>
      by_cases ha : c0 + 1 = p <;> by_cases ha2 : c0 + 2 = p <;>
      simp [relOf, hlrel p, hlreq p, ha, ha2] at hb ⊢ <;> omega
  · refine ⟨(create_pipeline e0 c0).evs ++ lead ++ relOf gpu ++ relOf gpf,
      (create_pipeline e1 (c0 + 3)).evs ++ [Ev.armTimer 1], ?_, ?_, ?_⟩
    · rcases gpu with _ | q1 <;> rcases gpf with _ | q2 <;>
        simp [relOf, List.append_assoc]
    · simp [hunr1]
    · intro p hp
      have hb := hbal0 p
      have hz := hn1 p hp
      constructor
      · by_cases hr : cnt (Ev.relPad p) (create_pipeline e0 c0).evs = 0
        · rcases hpu with h1 | h1 <;> subst h1 <;>
            rcases hpf with h2 | h2 <;> subst h2 <;>
            by_cases ha : c0 + 1 = p <;> by_cases ha2 : c0 + 2 = p <;>
            simp [relOf, hp, hr, ha, ha2] at hb ⊢
        · have hm := mem_of_cnt_ne_zero hr
          simp [hm]
      · simp [hz]

/-- C1: over one full rebuild cycle in either mode — starting from a
state holding exactly the pads and handle of a successful
`create_pipeline` call — every tee request pad requested by that call
is released exactly once across the cycle, releases never outnumber
requests, the old pipeline handle is unreffed exactly once and every
release of this cycle's pads happens strictly before that unref, and
the post-cycle state owns none of this cycle's pads (no leak across
the cycle boundary). -/
theorem c1_connector_pads_released_once_per_cycle
    (e0 e1 : BuildEnv) (c0 : Nat) (gi : GraphInstance)
    (h0 : (create_pipeline e0 c0).res = some gi)
    (s0 : MState)
    (hph : s0.phase = Phase.NULL_STATE)
    (hmode : s0.phase_mode = 3 ∨ s0.phase_mode = 4)
    (hu : s0.pad_udp = gi.pad_udp) (hf2 : s0.pad_fps = gi.pad_fps)
    (hg : s0.graph = some gi.gid)
    (hc : s0.counter = (create_pipeline e0 c0).next) :
    (∀ p, cnt (Ev.reqPad p) (create_pipeline e0 c0).evs = 1 →
        cnt (Ev.relPad p) ((create_pipeline e0 c0).evs ++ (cycleOut e1 s0).evs) = 1)
    ∧ (∀ p, cnt (Ev.relPad p) ((create_pipeline e0 c0).evs ++ (cycleOut e1 s0).evs)
        ≤ cnt (Ev.reqPad p) ((create_pipeline e0 c0).evs ++ (cycleOut e1 s0).evs))
    ∧ (∃ pre post, (create_pipeline e0 c0).evs ++ (cycleOut e1 s0).evs
          = pre ++ Ev.unrefGraph gi.gid :: post
        ∧ cnt (Ev.unrefGraph gi.gid) post = 0
        ∧ ∀ p, cnt (Ev.reqPad p) (create_pipeline e0 c0).evs = 1 →
            Ev.relPad p ∈ pre ∧ cnt (Ev.relPad p) post = 0)
    ∧ (∀ p, cnt (Ev.reqPad p) (create_pipeline e0 c0).evs = 1 →
        ((cycleOut e1 s0).st).pad_udp ≠ some p
        ∧ ((cycleOut e1 s0).st).pad_fps ≠ some p) := by
  obtain ⟨hgid, hpu, hpf, hnext, hnoun⟩ := cp_res_chars e0 c0 gi h0
  have hreq0 := cp_req_ids e0 c0
  rcases gi with ⟨gid, gpu, gpf⟩
  simp only [GraphInstance.gid] at hgid
  subst hgid
  simp only [GraphInstance.pad_udp, GraphInstance.pad_fps] at hpu hpf hu hf2
  simp only [GraphInstance.gid] at hg ⊢
  rcases s0 with ⟨ph, mo, ti, fc, lfc, stg, pu, pf, gr, co, tm⟩
  simp only [MState.phase, MState.phase_mode, MState.pad_udp, MState.pad_fps,
    MState.graph, MState.counter] at hph hmode hu hf2 hg hc
  subst hph
  subst hu
  subst hf2
  subst hg
  rw [hnext] at hc
  subst hc
  rcases hmode with hm | hm <;> subst hm
  · have hcy := cycle3_evs e1 ti fc lfc stg pu pf gid (gid + 3) tm
    have hcore := cycle_release_core e0 e1 gid pu pf h0 hpu hpf
      [Ev.setState GstState.playing, Ev.armTimer 10,
       Ev.setState GstState.paused, Ev.armTimer 1,
       Ev.setState GstState.null]
      (by intro p; simp) (by intro p; simp) _ hcy
    refine ⟨hcore.1, hcore.2.1, hcore.2.2, ?_⟩
    intro p hp
    have hid := hreq0 p (by omega)
    have hpads := cycle3_st_pads e1 ti fc lfc stg pu pf gid (gid + 3) tm
    rw [hpads.1, hpads.2]
    rcases hres : (create_pipeline e1 (gid + 3)).res with _ | gi2
    · simp
    · obtain ⟨_, hpu2, hpf2, _, _⟩ := cp_res_chars e1 (gid + 3) gi2 hres
      rcases hpu2 with h | h <;> rcases hpf2 with h' | h' <;>
        simp [h, h'] <;> omega
  · have hcy := cycle4_evs e1 ti fc lfc stg pu pf gid (gid + 3) tm
    have hcore := cycle_release_core e0 e1 gid pu pf h0 hpu hpf
      [Ev.setState GstState.playing, Ev.armTimer 10,
       Ev.setState GstState.paused, Ev.armTimer 1,
       Ev.setState GstState.ready, Ev.armTimer 1,
       Ev.setState GstState.null]
      (by intro p; simp) (by intro p; simp) _ hcy
    refine ⟨hcore.1, hcore.2.1, hcore.2.2, ?_⟩
    intro p hp
    have hid := hreq0 p (by omega)
    have hpads := cycle4_st_pads e1 ti fc lfc stg pu pf gid (gid + 3) tm
    rw [hpads.1, hpads.2]
    rcases hres : (create_pipeline e1 (gid + 3)).res with _ | gi2
    · simp
    · obtain ⟨_, hpu2, hpf2, _, _⟩ := cp_res_chars e1 (gid + 3) gi2 hres
      rcases hpu2 with h | h <;> rcases hpf2 with h' | h' <;>
        simp [h, h'] <;> omega

/-- Witness for C1: in a fully successful 3-phase run, the two pads
requested by the initial construction (ids 1 and 2) are each released
exactly once over the first cycle. -/
theorem c1_connector_pads_witness :
    cnt (Ev.relPad 1)
        ((create_pipeline okEnv 0).evs ++ (cycleOut okEnv (mainInit 3 okEnv)).evs) = 1
    ∧ cnt (Ev.relPad 2)
        ((create_pipeline okEnv 0).evs ++ (cycleOut okEnv (mainInit 3 okEnv)).evs) = 1 :=
  ⟨(c1_connector_pads_released_once_per_cycle okEnv okEnv 0 ⟨0, some 1, some 2⟩
      (by rfl) (mainInit 3 okEnv) (by rfl) (Or.inl (by rfl)) (by rfl) (by rfl)
      (by rfl) (by rfl)).1 1 (by decide),
    (c1_connector_pads_released_once_per_cycle okEnv okEnv 0 ⟨0, some 1, some 2⟩
      (by rfl) (mainInit 3 okEnv) (by rfl) (Or.inl (by rfl)) (by rfl) (by rfl)
      (by rfl) (by rfl)).1 2 (by decide)⟩
